import Mathlib

/-!
Verification of the `lista-compras-microservices` API gateway and service
registry against its specification.

The gateway (class `ApiGateway`) keeps one circuit breaker per downstream
service (`user-service`, `item-service`, `list-service`), proxies requests
under the path prefixes `/api/auth`, `/api/users`, `/api/items`, `/api/lists`,
and serves two aggregate endpoints (`/api/dashboard`, `/api/search`).
The service registry (class `ServiceRegistry`) maps service names to records
with a health flag and timestamps.

The embedding below translates those functions into pure Lean functions.
Timestamps are natural numbers of milliseconds (`Date.now()`), downstream
network outcomes are passed in explicitly (`AxiosOutcome`, `FetchResult`),
and each handler additionally returns which downstream calls it dispatched,
so that "no network attempt was made" is a provable statement.
-/

/-- Circuit breaker states. The source uses the strings
`'CLOSED'`, `'OPEN'`, `'HALF-OPEN'`. -/
inductive BState where
  | CLOSED
  | OPEN
  | HALFOPEN
  deriving DecidableEq, Repr

/-- One entry of `this.circuitBreakers`:
`{ failures: 0, state: 'CLOSED', lastFailure: 0 }`. -/
structure Breaker where
  failures : Nat
  state : BState
  lastFailure : Nat
  deriving DecidableEq, Repr

/-- Outcome of an `axios` request issued by the proxy. `success` is a 2xx
response; `httpError` is a completed HTTP response with an error status
(axios rejects and sets `error.response`); `networkError` is a network
failure or timeout (`error.response` absent). -/
inductive AxiosOutcome where
  | success (status : Nat) (data : String)
  | httpError (status : Nat) (data : String)
  | networkError (message : String)
  deriving DecidableEq, Repr

/-- Whether the axios promise rejected (enters the `catch` block). -/
def AxiosOutcome.isFailure : AxiosOutcome → Bool
  | .success _ _ => false
  | _ => true

/-- Body of a response the proxy handler sends to the caller. -/
inductive ProxyBody where
  | breakerOpen (serviceName : String)
  | serviceNotFound (serviceName : String)
  | relayed (data : String)
  | serviceUnavailable (serviceName : String) (error : String)
  deriving DecidableEq, Repr

/-- An HTTP response sent by the gateway: status code and body. -/
structure HttpResponse where
  status : Nat
  body : ProxyBody
  deriving DecidableEq, Repr

/-- A record held by the service registry (`this.services[name]`). The
source spreads arbitrary `serviceInfo` metadata; we keep its `url` field,
the only one the gateway reads. -/
structure ServiceRecord where
  url : String
  registeredAt : Nat
  lastHealthCheck : Nat
  healthy : Bool
  deriving DecidableEq, Repr

/-- Lookup of a key in a JS-object-as-association-list (`obj[name]`). -/
def lookupEntry {α : Type} (name : String) : List (String × α) → Option α
  | [] => none
  | (n, r) :: rest => if n = name then some r else lookupEntry name rest

/-- Assignment `obj[name] = r` (overwrites, or appends a new key). -/
def setEntry {α : Type} (name : String) (r : α) :
    List (String × α) → List (String × α)
  | [] => [(name, r)]
  | (n, x) :: rest =>
    if n = name then (name, r) :: rest else (n, x) :: setEntry name r rest

/-- The breaker update performed in the proxy's `catch` block:
`failures++; lastFailure = Date.now(); if (failures >= 3) state = 'OPEN';
else if (state === 'HALF-OPEN') state = 'OPEN'`. -/
def recordFailure (b : Breaker) (now : Nat) : Breaker :=
  let f := b.failures + 1
  { b with
    failures := f
    lastFailure := now
    state :=
      if 3 ≤ f then BState.OPEN
      else if b.state = BState.HALFOPEN then BState.OPEN
      else b.state }

/-- The body of `proxyToService` after the breaker gate: discovery, the
forwarded call, and the success/error handling. The third component of the
result records whether a downstream network call was dispatched. -/
def proxyDispatch (serviceName : String) (b : Breaker) (now : Nat)
    (svc : Option ServiceRecord) (outcome : AxiosOutcome) :
    Breaker × HttpResponse × Bool :=
  match svc with
  | none => (b, ⟨503, ProxyBody.serviceNotFound serviceName⟩, false)
  | some _ =>
    match outcome with
    | AxiosOutcome.success st d =>
      let b2 :=
        if b.state = BState.HALFOPEN then
          { b with state := BState.CLOSED, failures := 0 }
        else b
      (b2, ⟨st, ProxyBody.relayed d⟩, true)
    | AxiosOutcome.httpError st d =>
      (recordFailure b now, ⟨st, ProxyBody.relayed d⟩, true)
    | AxiosOutcome.networkError msg =>
      (recordFailure b now, ⟨503, ProxyBody.serviceUnavailable serviceName msg⟩, true)

/-- One invocation of the handler returned by `proxyToService(serviceName)`.
Mirrors the source: if the breaker is OPEN and the cooldown (30000 ms since
`lastFailure`) has not strictly elapsed, fast-fail with 503; if it has,
move to HALF-OPEN and attempt the call; otherwise attempt the call. -/
def proxyToService (serviceName : String) (b : Breaker) (now : Nat)
    (svc : Option ServiceRecord) (outcome : AxiosOutcome) :
    Breaker × HttpResponse × Bool :=
  if b.state = BState.OPEN then
    if 30000 < now - b.lastFailure then
      proxyDispatch serviceName { b with state := BState.HALFOPEN } now svc outcome
    else
      (b, ⟨503, ProxyBody.breakerOpen serviceName⟩, false)
  else
    proxyDispatch serviceName b now svc outcome

/-- The per-service breaker mutation performed by one probe inside the
gateway's `/health` handler (`healthCheck`): on probe success
`failures = 0; state = 'CLOSED'`; on probe failure `failures++;
lastFailure = Date.now(); if (failures >= 3) state = 'OPEN'`. -/
def healthCheckBreaker (b : Breaker) (now : Nat) (ok : Bool) : Breaker :=
  if ok then
    { b with failures := 0, state := BState.CLOSED }
  else
    let f := b.failures + 1
    { b with
      failures := f
      lastFailure := now
      state := if 3 ≤ f then BState.OPEN else b.state }

/-- A gateway operation that can touch a given service's breaker: a proxied
call (with its wall-clock time, discovery result and downstream outcome) or
one probe of the `/health` handler. -/
inductive GatewayOp where
  | proxy (now : Nat) (svc : Option ServiceRecord) (outcome : AxiosOutcome)
  | probe (now : Nat) (ok : Bool)
  deriving Repr

/-- The breaker after one gateway operation. -/
def applyOp (serviceName : String) (b : Breaker) : GatewayOp → Breaker
  | GatewayOp.proxy now svc outcome => (proxyToService serviceName b now svc outcome).1
  | GatewayOp.probe now ok => healthCheckBreaker b now ok

/-- `this.circuitBreakers`: one breaker per service name. -/
abbrev BreakerBank := List (String × Breaker)

/-- The loop of the `/health` handler over the registered services: each
`(serviceName, ok)` pair is one probe outcome (`axios.get(url + '/health')`
resolved or rejected); the breaker entry is updated only when
`this.circuitBreakers[serviceName]` exists. -/
def healthCheck (now : Nat) : List (String × Bool) → BreakerBank → BreakerBank
  | [], bank => bank
  | (n, ok) :: rest, bank =>
    healthCheck now rest
      (match lookupEntry n bank with
       | none => bank
       | some b => setEntry n (healthCheckBreaker b now ok) bank)

/-! ### Service registry (`class ServiceRegistry`)

`this.services` is a JS object keyed by service name; we embed it as an
association list. Persistence (`saveRegistry`) is best-effort file I/O with
no effect on the in-memory view, so it is omitted. -/

/-- The metadata passed to `register`; the gateway only ever reads `url`. -/
structure ServiceInfo where
  url : String
  deriving DecidableEq, Repr

/-- The in-memory registry `this.services`. -/
abbrev Registry := List (String × ServiceRecord)

namespace ServiceRegistry

/-- `register(serviceName, serviceInfo)`: upsert the record with both
timestamps set to now and `healthy: true`. -/
def register (reg : Registry) (serviceName : String) (serviceInfo : ServiceInfo)
    (now : Nat) : Registry :=
  setEntry serviceName
    { url := serviceInfo.url
      registeredAt := now
      lastHealthCheck := now
      healthy := true } reg

/-- `unregister(serviceName)`: delete the record if present; returns whether
removal occurred. -/
def unregister (reg : Registry) (serviceName : String) : Registry × Bool :=
  match lookupEntry serviceName reg with
  | none => (reg, false)
  | some _ => (reg.filter (fun p => !(p.1 = serviceName : Bool)), true)

/-- `discover(serviceName)`: the record, only if present and healthy. -/
def discover (reg : Registry) (serviceName : String) : Option ServiceRecord :=
  match lookupEntry serviceName reg with
  | none => none
  | some service => if service.healthy then some service else none

/-- `updateHealth(serviceName, isHealthy)`: flip the flag, refresh
`lastHealthCheck`; no-op returning `false` when the name is unknown. -/
def updateHealth (reg : Registry) (serviceName : String) (isHealthy : Bool)
    (now : Nat) : Registry × Bool :=
  match lookupEntry serviceName reg with
  | none => (reg, false)
  | some r =>
    (setEntry serviceName { r with healthy := isHealthy, lastHealthCheck := now } reg,
      true)

/-- The loop body of `cleanup()`: delete every entry whose
`lastHealthCheck` is strictly more than 2 minutes old. The source computes
`diffMinutes = (now - lastCheck) / (1000 * 60)` in exact (floating) division
and tests `diffMinutes > 2`; over the reals that is `now - lastCheck >
120000` milliseconds, which is how we state it (timestamps in ms, with
truncated subtraction matching the "kept" outcome for future timestamps). -/
def cleanupEntries (now : Nat) : Registry → Registry
  | [] => []
  | (n, r) :: rest =>
    if 120000 < now - r.lastHealthCheck then cleanupEntries now rest
    else (n, r) :: cleanupEntries now rest

/-- `cleanup()`: the reap sweep, returning the surviving registry and the
`cleaned` flag (whether any entry was removed). -/
def cleanup (reg : Registry) (now : Nat) : Registry × Bool :=
  (cleanupEntries now reg,
    reg.any (fun p => decide (120000 < now - p.2.lastHealthCheck)))

end ServiceRegistry

/-! ### Path rewriting in `proxyToService`

The source builds the forwarded URL as
`targetUrl = service.url + req.originalUrl.replace('/api/' +
serviceName.split('-')[0], '')` — a first-occurrence string replacement of
`/api/` followed by the part of the *service name* before the first dash. -/

/-- Characters of `s` before the first `'-'` (JS `s.split('-')[0]`). -/
def firstDashSegment : List Char → List Char
  | [] => []
  | c :: rest => if c = '-' then [] else c :: firstDashSegment rest

/-- Remove the first occurrence of `pat` from `s` (JS
`s.replace(pat, '')` with a string pattern replaces only the first match). -/
def removeFirstOcc (pat : List Char) : List Char → List Char
  | [] => []
  | c :: rest =>
    if pat.isPrefixOf (c :: rest) then (c :: rest).drop pat.length
    else c :: removeFirstOcc pat rest

/-- The path part of `targetUrl`: the inbound `req.originalUrl` with the
first occurrence of `'/api/' + serviceName.split('-')[0]` removed. -/
def rewrittenPath (serviceName originalUrl : String) : String :=
  String.mk
    (removeFirstOcc
      ("/api/".toList ++ firstDashSegment serviceName.toList)
      originalUrl.toList)

/-- The full forwarded URL `service.url + rewrittenPath`. -/
def targetUrl (serviceName : String) (service : ServiceRecord)
    (originalUrl : String) : String :=
  service.url ++ rewrittenPath serviceName originalUrl

/-! ### Aggregator: `getDashboard` and `globalSearch`

Each downstream `axios` call is passed in as a `FetchResult`: `ok` when the
promise resolved (carrying the parsed response envelope), `failed` when it
rejected (network failure, timeout, or HTTP error status — the aggregator
handlers treat all rejections alike through `error.message`). Discovery
results are passed in as `Option ServiceRecord`; when discovery returns
`null` the JS dereference `service.url` throws a TypeError that the
surrounding handler catches, which we model with `nullUrlMessage`. -/

/-- Result of one downstream `axios` call made by an aggregator handler. -/
inductive FetchResult (α : Type) where
  | ok (data : α)
  | failed (message : String)
  deriving DecidableEq, Repr

/-- Message of the TypeError thrown by dereferencing `service.url` when
`discover` returned `null` (text abbreviated from the Node runtime's). -/
def nullUrlMessage : String := "Cannot read properties of null"

/-- The user object inside a successful `/auth/validate` response
(`userResponse.data.data.user`); the dashboard projects these fields. -/
structure UserInfo where
  id : String
  username : String
  firstName : String
  lastName : String
  preferences : String
  deriving DecidableEq, Repr

/-- Envelope of the `/auth/validate` response (`userResponse.data`). -/
structure ValidateEnvelope where
  success : Bool
  user : UserInfo
  deriving DecidableEq, Repr

/-- The `summary` sub-object of a shopping list. Monetary amounts are kept
as naturals; no claim concerns their numeric formatting (`toFixed`). -/
structure ListSummary where
  totalItems : Nat
  purchasedItems : Nat
  estimatedTotal : Nat
  deriving DecidableEq, Repr

/-- A shopping list as returned by the list service. -/
structure ShoppingList where
  id : String
  name : String
  status : String
  summary : ListSummary
  updatedAt : String
  deriving DecidableEq, Repr

/-- Envelope of the `GET /lists` response (`listsResponse.data`). -/
structure ListsEnvelope where
  success : Bool
  data : List ShoppingList
  deriving DecidableEq, Repr

/-- Envelope of the `GET /items?active=true&limit=1` response; `total` is
`itemsResponse.data.pagination.total`. -/
structure ItemsEnvelope where
  success : Bool
  total : Nat
  deriving DecidableEq, Repr

/-- The `statistics` object of the dashboard payload. -/
structure DashboardStats where
  totalLists : Nat
  activeLists : Nat
  completedLists : Nat
  totalItems : Nat
  totalEstimated : Nat
  deriving DecidableEq, Repr

/-- One entry of the dashboard's `recentLists` projection. -/
structure RecentList where
  id : String
  name : String
  status : String
  itemCount : Nat
  purchasedCount : Nat
  estimatedTotal : Nat
  updatedAt : String
  deriving DecidableEq, Repr

/-- Body of a `getDashboard` response. -/
inductive DashBody where
  | tokenRequired
  | tokenInvalid
  | dashError (message : String)
  | dashboard (user : UserInfo) (statistics : DashboardStats)
      (recentLists : List RecentList)
  deriving DecidableEq, Repr

/-- Which downstream calls `getDashboard` dispatched. -/
structure DashCalls where
  validateCalled : Bool
  listsCalled : Bool
  itemsCalled : Bool
  deriving DecidableEq, Repr

/-- `authHeader?.startsWith('Bearer ')`. -/
def hasBearer (authHeader : Option String) : Bool :=
  match authHeader with
  | none => false
  | some h => "Bearer ".toList.isPrefixOf h.toList

/-- The `recentLists` projection of one list. -/
def recentListOf (l : ShoppingList) : RecentList :=
  { id := l.id
    name := l.name
    status := l.status
    itemCount := l.summary.totalItems
    purchasedCount := l.summary.purchasedItems
    estimatedTotal := l.summary.estimatedTotal
    updatedAt := l.updatedAt }

/-- The `getDashboard` handler. Inputs: the `Authorization` header, the
three discovery results, and the three downstream responses (consulted only
if the corresponding call is reached). Output: status code, body, and the
set of downstream calls dispatched. A thrown error anywhere in the `try`
(including the TypeError from a `null` discovery) lands in the `catch`,
which responds 500 with the error message. -/
def getDashboard (authHeader : Option String)
    (discUser discList discItem : Option ServiceRecord)
    (validateResp : FetchResult ValidateEnvelope)
    (listsResp : FetchResult ListsEnvelope)
    (itemsResp : FetchResult ItemsEnvelope) :
    (Nat × DashBody) × DashCalls :=
  if !hasBearer authHeader then
    ((401, DashBody.tokenRequired), ⟨false, false, false⟩)
  else
    match discUser with
    | none => ((500, DashBody.dashError nullUrlMessage), ⟨false, false, false⟩)
    | some _ =>
      match validateResp with
      | FetchResult.failed e => ((500, DashBody.dashError e), ⟨true, false, false⟩)
      | FetchResult.ok venv =>
        if !venv.success then
          ((401, DashBody.tokenInvalid), ⟨true, false, false⟩)
        else
          match discList with
          | none => ((500, DashBody.dashError nullUrlMessage), ⟨true, false, false⟩)
          | some _ =>
            match listsResp with
            | FetchResult.failed e =>
              ((500, DashBody.dashError e), ⟨true, true, false⟩)
            | FetchResult.ok lenv =>
              let lists := if lenv.success then lenv.data else []
              match discItem with
              | none =>
                ((500, DashBody.dashError nullUrlMessage), ⟨true, true, false⟩)
              | some _ =>
                match itemsResp with
                | FetchResult.failed e =>
                  ((500, DashBody.dashError e), ⟨true, true, true⟩)
                | FetchResult.ok ienv =>
                  let totalItems := if ienv.success then ienv.total else 0
                  let activeLists :=
                    (lists.filter (fun l => l.status = "active")).length
                  let completedLists :=
                    (lists.filter (fun l => l.status = "completed")).length
                  let totalEstimated :=
                    lists.foldl (fun sum l => sum + l.summary.estimatedTotal) 0
                  ((200,
                    DashBody.dashboard venv.user
                      { totalLists := lists.length
                        activeLists := activeLists
                        completedLists := completedLists
                        totalItems := totalItems
                        totalEstimated := totalEstimated }
                      ((lists.take 5).map recentListOf)),
                    ⟨true, true, true⟩)

/-- Substring test on character lists (JS `String.prototype.includes`). -/
def hasSubstr (pat : List Char) (s : List Char) : Bool :=
  pat.isPrefixOf s ||
    match s with
    | [] => false
    | _ :: rest => hasSubstr pat rest

/-- `list.name.toLowerCase().includes(q.toLowerCase())`. -/
def nameMatches (q : String) (name : String) : Bool :=
  hasSubstr (q.toList.map Char.toLower) (name.toList.map Char.toLower)

/-- Envelope of the item service's `GET /search` response; the payload is
kept abstract as strings. -/
structure ItemSearchEnvelope where
  success : Bool
  data : List String
  deriving DecidableEq, Repr

/-- The `results` object assembled by `globalSearch`: each key is present
only if the corresponding branch assigned it. -/
structure SearchResults where
  items : Option (List String)
  itemsError : Option String
  lists : Option (List ShoppingList)
  listsError : Option String
  deriving DecidableEq, Repr

/-- Body of a `globalSearch` response. -/
inductive SearchBody where
  | missingQuery
  | results (data : SearchResults) (query : String)
  deriving DecidableEq, Repr

/-- Which downstream calls `globalSearch` dispatched. -/
structure SearchCalls where
  itemsCalled : Bool
  listsCalled : Bool
  deriving DecidableEq, Repr

/-- The `globalSearch` handler. `q` is the query parameter (`none` when
absent; the source's falsy test also rejects the empty string). The item
search runs in its own try/catch whose failures land in `results.itemsError`;
the list search runs only when a bearer credential is present, with failures
landing in `results.listsError`; the handler then responds 200 with
`success: true` regardless. -/
def globalSearch (q : Option String) (authHeader : Option String)
    (discItem discList : Option ServiceRecord)
    (itemResp : FetchResult ItemSearchEnvelope)
    (listsResp : FetchResult ListsEnvelope) :
    (Nat × SearchBody) × SearchCalls :=
  match q with
  | none => ((400, SearchBody.missingQuery), ⟨false, false⟩)
  | some qv =>
    if qv = "" then ((400, SearchBody.missingQuery), ⟨false, false⟩)
    else
      let base : SearchResults := ⟨none, none, none, none⟩
      let (r1, itemsCalled) :=
        match discItem with
        | none => ({ base with itemsError := some nullUrlMessage }, false)
        | some _ =>
          match itemResp with
          | FetchResult.failed e => ({ base with itemsError := some e }, true)
          | FetchResult.ok env =>
            (if env.success then { base with items := some env.data } else base,
              true)
      let (r2, listsCalled) :=
        if hasBearer authHeader then
          match discList with
          | none => ({ r1 with listsError := some nullUrlMessage }, false)
          | some _ =>
            match listsResp with
            | FetchResult.failed e => ({ r1 with listsError := some e }, true)
            | FetchResult.ok lenv =>
              if lenv.success then
                ({ r1 with
                    lists := some
                      ((lenv.data.filter (fun l => nameMatches qv l.name)).take 5) },
                  true)
              else (r1, true)
        else (r1, false)
      ((200, SearchBody.results r2 qv), ⟨itemsCalled, listsCalled⟩)

/-! ### Sample data used by concrete witnesses and counterexamples -/

/-- A sample downstream service record. -/
def svcSample : ServiceRecord := ⟨"http://localhost:3001", 0, 0, true⟩

/-- A sample authenticated user. -/
def userSample : UserInfo := ⟨"u1", "alice", "Alice", "Lima", "dark"⟩

/-- A sample shopping list with `status: 'active'`. -/
def listSample : ShoppingList := ⟨"l1", "Feira da semana", "active", ⟨3, 1, 50⟩, "2024-01-01"⟩

/-- A sample registry with a 2m01s-stale `user-service` record and a
1m59s-fresh `item-service` record, as seen from wall-clock time 121000 ms. -/
def regSample : Registry :=
  [("user-service", ⟨"http://localhost:3001", 0, 0, true⟩),
   ("item-service", ⟨"http://localhost:3002", 0, 2000, true⟩)]

/-! ## Helper lemmas -/

theorem lookupEntry_setEntry_self {α : Type} (name : String) (r : α)
    (l : List (String × α)) : lookupEntry name (setEntry name r l) = some r := by
  induction l with
  | nil => simp [setEntry, lookupEntry]
  | cons p rest ih =>
    obtain ⟨n, x⟩ := p
    by_cases h : n = name <;> simp [setEntry, lookupEntry, h, ih]

theorem lookupEntry_setEntry_ne {α : Type} (m name : String) (r : α)
    (l : List (String × α)) (h : name ≠ m) :
    lookupEntry m (setEntry name r l) = lookupEntry m l := by
  induction l with
  | nil => simp [setEntry, lookupEntry, h]
  | cons p rest ih =>
    obtain ⟨n, x⟩ := p
    by_cases hn : n = name
    · subst hn; simp [setEntry, lookupEntry, h]
    · simp [setEntry, lookupEntry, hn, ih]

theorem healthCheck_lookup_not_mem (now : Nat) (probes : List (String × Bool))
    (bank : BreakerBank) (name : String)
    (h : name ∉ probes.map Prod.fst) :
    lookupEntry name (healthCheck now probes bank) = lookupEntry name bank := by
  induction probes generalizing bank with
  | nil => simp [healthCheck]
  | cons p rest ih =>
    obtain ⟨n, ok⟩ := p
    simp only [List.map_cons, List.mem_cons, not_or] at h
    rw [healthCheck, ih _ h.2]
    cases hb : lookupEntry n bank with
    | none => rfl
    | some b => exact lookupEntry_setEntry_ne _ _ _ _ (Ne.symm h.1)

theorem healthCheck_lookup (now : Nat) (probes : List (String × Bool))
    (bank : BreakerBank) (name : String) (ok : Bool) (b : Breaker)
    (hnd : (probes.map Prod.fst).Nodup)
    (hmem : (name, ok) ∈ probes)
    (hb : lookupEntry name bank = some b) :
    lookupEntry name (healthCheck now probes bank)
      = some (healthCheckBreaker b now ok) := by
  induction probes generalizing bank with
  | nil => simp at hmem
  | cons p rest ih =>
    obtain ⟨n, ok2⟩ := p
    rw [List.map_cons, List.nodup_cons] at hnd
    rcases List.mem_cons.mp hmem with heq | hrest
    · injection heq with e1 e2
      subst e1; subst e2
      rw [healthCheck, hb, healthCheck_lookup_not_mem _ _ _ _ hnd.1,
        lookupEntry_setEntry_self]
    · have hname_mem : name ∈ rest.map Prod.fst :=
        List.mem_map.mpr ⟨(name, ok), hrest, rfl⟩
      have hne : name ≠ n := fun hcontra => hnd.1 (hcontra ▸ hname_mem)
      rw [healthCheck]
      cases hbn : lookupEntry n bank with
      | none => exact ih _ hnd.2 hrest hb
      | some bn =>
        exact ih _ hnd.2 hrest
          ((lookupEntry_setEntry_ne name n _ bank (Ne.symm hne)).trans hb)

theorem recordFailure_failures (b : Breaker) (now : Nat) :
    (recordFailure b now).failures = b.failures + 1 := rfl

theorem recordFailure_lastFailure (b : Breaker) (now : Nat) :
    (recordFailure b now).lastFailure = now := rfl

theorem recordFailure_state_open_of_halfopen (b : Breaker) (now : Nat)
    (h : b.state = BState.HALFOPEN) :
    (recordFailure b now).state = BState.OPEN := by
  show (if 3 ≤ b.failures + 1 then BState.OPEN
    else if b.state = BState.HALFOPEN then BState.OPEN else b.state) = BState.OPEN
  rw [h]
  split <;> simp

theorem proxyToService_not_open (sn : String) (b : Breaker) (now : Nat)
    (svc : Option ServiceRecord) (o : AxiosOutcome) (h : b.state ≠ BState.OPEN) :
    proxyToService sn b now svc o = proxyDispatch sn b now svc o := by
  simp [proxyToService, h]

theorem proxyDispatch_failure_fst (sn : String) (b : Breaker) (now : Nat)
    (s : ServiceRecord) (o : AxiosOutcome) (ho : o.isFailure = true) :
    (proxyDispatch sn b now (some s) o).1 = recordFailure b now := by
  cases o with
  | success st d => simp [AxiosOutcome.isFailure] at ho
  | httpError st d => rfl
  | networkError msg => rfl

theorem proxyDispatch_dispatched (sn : String) (b : Breaker) (now : Nat)
    (s : ServiceRecord) (o : AxiosOutcome) :
    (proxyDispatch sn b now (some s) o).2.2 = true := by
  cases o <;> simp [proxyDispatch]

/-! ## Claims -/

/-- C1: the claim states the forwarded path equals the inbound path with the
matched gateway prefix (`/api/auth`, `/api/users`, `/api/items`,
`/api/lists`) stripped. The code instead removes the first occurrence of
`'/api/' + serviceName.split('-')[0]` — i.e. `/api/user`, `/api/item`,
`/api/list` — so `/api/users/123` forwards as `s/123` (malformed target URL
`http://localhost:3001s/123`) and `/api/auth/login` is forwarded without any
stripping. This theorem evaluates the embedded rewrite at those inputs. -/
theorem C1_path_rewrite_divergence :
    rewrittenPath "user-service" "/api/users/123" = "s/123" ∧
    rewrittenPath "user-service" "/api/auth/login" = "/api/auth/login" ∧
    rewrittenPath "item-service" "/api/items/5" = "s/5" ∧
    rewrittenPath "list-service" "/api/lists/9" = "s/9" ∧
    targetUrl "user-service" svcSample "/api/users/123"
      = "http://localhost:3001s/123" := by
  decide

/-- C2: the per-service breaker follows the specified state machine:
(1) three consecutive failed dispatched calls from a fresh CLOSED breaker
leave it OPEN; (2) a call while OPEN with at most 30s since the last failure
is rejected untouched, with no downstream dispatch; (3) after more than 30s
the call is attempted and on success the breaker is CLOSED with zero
failures; (4) on failure of that trial the breaker is OPEN with the counter
incremented and the timestamp updated. -/
theorem C2_breaker_state_machine (serviceName : String) (s : ServiceRecord) :
    (∀ b n1 n2 n3 o1 o2 o3, b.state = BState.CLOSED → b.failures = 0 →
      AxiosOutcome.isFailure o1 = true → AxiosOutcome.isFailure o2 = true →
      AxiosOutcome.isFailure o3 = true →
      (proxyToService serviceName
        (proxyToService serviceName
          (proxyToService serviceName b n1 (some s) o1).1
          n2 (some s) o2).1
        n3 (some s) o3).1.state = BState.OPEN) ∧
    (∀ b now svc o, b.state = BState.OPEN → now - b.lastFailure ≤ 30000 →
      proxyToService serviceName b now svc o
        = (b, ⟨503, ProxyBody.breakerOpen serviceName⟩, false)) ∧
    (∀ b now st d, b.state = BState.OPEN → 30000 < now - b.lastFailure →
      proxyToService serviceName b now (some s) (AxiosOutcome.success st d)
        = ({ b with state := BState.CLOSED, failures := 0 },
            ⟨st, ProxyBody.relayed d⟩, true)) ∧
    (∀ b now o, b.state = BState.OPEN → 30000 < now - b.lastFailure →
      AxiosOutcome.isFailure o = true →
      (proxyToService serviceName b now (some s) o).1.state = BState.OPEN ∧
      (proxyToService serviceName b now (some s) o).1.failures = b.failures + 1 ∧
      (proxyToService serviceName b now (some s) o).1.lastFailure = now ∧
      (proxyToService serviceName b now (some s) o).2.2 = true) := by
  refine ⟨?_, ?_, ?_, ?_⟩
  · intro b n1 n2 n3 o1 o2 o3 hst hf h1 h2 h3
    obtain ⟨f, st, lf⟩ := b
    simp only at hst hf
    subst hst; subst hf
    have e1 : (proxyToService serviceName ⟨0, BState.CLOSED, lf⟩ n1 (some s) o1).1
        = ⟨1, BState.CLOSED, n1⟩ := by
      rw [proxyToService_not_open _ _ _ _ _ (by simp),
        proxyDispatch_failure_fst _ _ _ _ _ h1]
      simp [recordFailure]
    have e2 : (proxyToService serviceName ⟨1, BState.CLOSED, n1⟩ n2 (some s) o2).1
        = ⟨2, BState.CLOSED, n2⟩ := by
      rw [proxyToService_not_open _ _ _ _ _ (by simp),
        proxyDispatch_failure_fst _ _ _ _ _ h2]
      simp [recordFailure]
    have e3 : (proxyToService serviceName ⟨2, BState.CLOSED, n2⟩ n3 (some s) o3).1
        = ⟨3, BState.OPEN, n3⟩ := by
      rw [proxyToService_not_open _ _ _ _ _ (by simp),
        proxyDispatch_failure_fst _ _ _ _ _ h3]
      simp [recordFailure]
    rw [e1, e2, e3]
  · intro b now svc o h1 h2
    rw [proxyToService, if_pos h1, if_neg (by omega)]
  · intro b now st d h1 h2
    rw [proxyToService, if_pos h1, if_pos h2]
    simp [proxyDispatch]
  · intro b now o h1 h2 ho
    rw [proxyToService, if_pos h1, if_pos h2,
      proxyDispatch_failure_fst _ _ _ _ _ ho]
    exact ⟨recordFailure_state_open_of_halfopen _ _ rfl, rfl, rfl,
      proxyDispatch_dispatched ..⟩

/-- C2 witness: a fresh `user-service` breaker, three refused connections,
then a fast-fail, then a successful trial after the cooldown. -/
theorem C2_witness :
    (proxyToService "user-service"
      (proxyToService "user-service"
        (proxyToService "user-service" ⟨0, BState.CLOSED, 0⟩ 10 (some svcSample)
          (AxiosOutcome.networkError "ECONNREFUSED")).1
        20 (some svcSample) (AxiosOutcome.networkError "ECONNREFUSED")).1
      30 (some svcSample) (AxiosOutcome.networkError "ECONNREFUSED")).1.state
      = BState.OPEN ∧
    proxyToService "user-service" ⟨3, BState.OPEN, 30⟩ 10030 none
      (AxiosOutcome.success 200 "ok")
      = (⟨3, BState.OPEN, 30⟩, ⟨503, ProxyBody.breakerOpen "user-service"⟩, false) ∧
    proxyToService "user-service" ⟨3, BState.OPEN, 30⟩ 40000 (some svcSample)
      (AxiosOutcome.success 200 "ok")
      = (⟨0, BState.CLOSED, 30⟩, ⟨200, ProxyBody.relayed "ok"⟩, true) := by
  refine ⟨?_, ?_, ?_⟩
  · exact (C2_breaker_state_machine "user-service" svcSample).1
      ⟨0, BState.CLOSED, 0⟩ 10 20 30 _ _ _ rfl rfl rfl rfl rfl
  · exact (C2_breaker_state_machine "user-service" svcSample).2.1
      ⟨3, BState.OPEN, 30⟩ 10030 none _ rfl (by decide)
  · exact (C2_breaker_state_machine "user-service" svcSample).2.2.1
      ⟨3, BState.OPEN, 30⟩ 40000 200 "ok" rfl (by decide)

/-- C10: one invocation of the gateway's `/health` endpoint mutates the
breaker of every registered service that has a breaker entry: a successful
probe sets CLOSED and zero failures regardless of the prior state (closing
an OPEN breaker with no HALF_OPEN trial), and a failed probe increments the
counter, sets `lastFailure`, and moves to OPEN once the counter reaches
three. `probes` is the per-service probe outcome list, one entry per
registered service (keys distinct, as keys of the JS registry object). -/
theorem C10_health_endpoint_mutates_breakers
    (now : Nat) (probes : List (String × Bool)) (bank : BreakerBank)
    (name : String) (ok : Bool) (b : Breaker)
    (hnd : (probes.map Prod.fst).Nodup)
    (hmem : (name, ok) ∈ probes)
    (hb : lookupEntry name bank = some b) :
    lookupEntry name (healthCheck now probes bank)
      = some (healthCheckBreaker b now ok) ∧
    healthCheckBreaker b now true
      = { b with failures := 0, state := BState.CLOSED } ∧
    ((healthCheckBreaker b now false).failures = b.failures + 1 ∧
      (healthCheckBreaker b now false).lastFailure = now ∧
      (3 ≤ b.failures + 1 → (healthCheckBreaker b now false).state = BState.OPEN) ∧
      (b.failures + 1 < 3 → (healthCheckBreaker b now false).state = b.state)) := by
  refine ⟨healthCheck_lookup now probes bank name ok b hnd hmem hb, rfl, rfl, rfl,
    ?_, ?_⟩
  · intro h3
    show (if 3 ≤ b.failures + 1 then BState.OPEN else b.state) = BState.OPEN
    rw [if_pos h3]
  · intro h3
    show (if 3 ≤ b.failures + 1 then BState.OPEN else b.state) = b.state
    rw [if_neg (by omega)]

/-- C10 witness: one endpoint invocation probing an OPEN `user-service`
(successfully) and a twice-failed `item-service` (failing again). -/
theorem C10_witness :
    lookupEntry "user-service"
      (healthCheck 500 [("user-service", true), ("item-service", false)]
        [("user-service", ⟨5, BState.OPEN, 90⟩), ("item-service", ⟨2, BState.CLOSED, 40⟩)])
      = some ⟨0, BState.CLOSED, 90⟩ ∧
    lookupEntry "item-service"
      (healthCheck 500 [("user-service", true), ("item-service", false)]
        [("user-service", ⟨5, BState.OPEN, 90⟩), ("item-service", ⟨2, BState.CLOSED, 40⟩)])
      = some ⟨3, BState.OPEN, 500⟩ := by
  constructor
  · have h := C10_health_endpoint_mutates_breakers 500
      [("user-service", true), ("item-service", false)]
      [("user-service", ⟨5, BState.OPEN, 90⟩), ("item-service", ⟨2, BState.CLOSED, 40⟩)]
      "user-service" true ⟨5, BState.OPEN, 90⟩ (by decide) (by decide) (by decide)
    rw [h.1]; decide
  · have h := C10_health_endpoint_mutates_breakers 500
      [("user-service", true), ("item-service", false)]
      [("user-service", ⟨5, BState.OPEN, 90⟩), ("item-service", ⟨2, BState.CLOSED, 40⟩)]
      "item-service" false ⟨2, BState.CLOSED, 40⟩ (by decide) (by decide) (by decide)
    rw [h.1]; decide

/-- C4 counterexample: a downstream HTTP 404 response (axios rejects with
`error.response` set) is relayed verbatim, but the breaker failure counter
is nevertheless incremented and its timestamp updated — refuting the claim
that a breaker failure is recorded only on network failure or timeout. -/
theorem C4_counterexample :
    proxyToService "item-service" ⟨0, BState.CLOSED, 0⟩ 1000 (some svcSample)
      (AxiosOutcome.httpError 404 "not found")
      = (⟨1, BState.CLOSED, 1000⟩, ⟨404, ProxyBody.relayed "not found"⟩, true) := by
  decide

/-- C4 amended: a downstream HTTP error response is relayed verbatim
(status and body), but a breaker failure (counter increment, timestamp
update) is recorded on every rejected call — downstream HTTP error
responses as well as network failures and timeouts. -/
theorem C4_http_error_relay_and_breaker (sn : String) (b : Breaker) (now : Nat)
    (s : ServiceRecord) (st : Nat) (d msg : String)
    (hgate : b.state = BState.OPEN → 30000 < now - b.lastFailure) :
    (proxyToService sn b now (some s) (AxiosOutcome.httpError st d)).2.1
      = ⟨st, ProxyBody.relayed d⟩ ∧
    (proxyToService sn b now (some s) (AxiosOutcome.httpError st d)).1.failures
      = b.failures + 1 ∧
    (proxyToService sn b now (some s) (AxiosOutcome.httpError st d)).1.lastFailure
      = now ∧
    (proxyToService sn b now (some s) (AxiosOutcome.networkError msg)).2.1
      = ⟨503, ProxyBody.serviceUnavailable sn msg⟩ ∧
    (proxyToService sn b now (some s) (AxiosOutcome.networkError msg)).1.failures
      = b.failures + 1 ∧
    (proxyToService sn b now (some s) (AxiosOutcome.networkError msg)).1.lastFailure
      = now := by
  by_cases h : b.state = BState.OPEN
  · rw [proxyToService, proxyToService, if_pos h, if_pos h,
      if_pos (hgate h), if_pos (hgate h)]
    exact ⟨rfl, rfl, rfl, rfl, rfl, rfl⟩
  · rw [proxyToService_not_open _ _ _ _ _ h, proxyToService_not_open _ _ _ _ _ h]
    exact ⟨rfl, rfl, rfl, rfl, rfl, rfl⟩

/-- C4 witness: the amended statement at a CLOSED `list-service` breaker. -/
theorem C4_witness :
    (proxyToService "list-service" ⟨1, BState.CLOSED, 7⟩ 2000 (some svcSample)
      (AxiosOutcome.httpError 422 "invalid")).2.1
      = ⟨422, ProxyBody.relayed "invalid"⟩ ∧
    (proxyToService "list-service" ⟨1, BState.CLOSED, 7⟩ 2000 (some svcSample)
      (AxiosOutcome.networkError "timeout")).1.failures = 2 := by
  have h := C4_http_error_relay_and_breaker "list-service" ⟨1, BState.CLOSED, 7⟩
    2000 svcSample 422 "invalid" "timeout" (by intro hc; exact absurd hc (by decide))
  exact ⟨h.1, h.2.2.2.2.1⟩

/-- C3 counterexample: a successful `/health` probe on a breaker that is
already CLOSED with a nonzero counter resets the counter to zero although
no transition to CLOSED occurs (the state stays CLOSED) — refuting the
"only at such a transition" direction of the claim. -/
theorem C3_counterexample :
    (applyOp "user-service" ⟨2, BState.CLOSED, 0⟩
      (GatewayOp.probe 100 true)).failures = 0 ∧
    (⟨2, BState.CLOSED, 0⟩ : Breaker).failures ≠ 0 ∧
    (⟨2, BState.CLOSED, 0⟩ : Breaker).state = BState.CLOSED ∧
    (applyOp "user-service" ⟨2, BState.CLOSED, 0⟩
      (GatewayOp.probe 100 true)).state = BState.CLOSED := by
  decide

/-- C3 amended: over every single gateway operation (proxied call or health
probe), every transition into CLOSED sets the counter to zero, and the
counter is set to zero (from a nonzero value) only by an operation whose
resulting state is CLOSED — but such an operation need not be a transition:
a successful health probe also rezeroes the counter when the breaker is
already CLOSED. -/
theorem C3_counter_reset_iff_closed (sn : String) (b : Breaker) (op : GatewayOp) :
    ((applyOp sn b op).state = BState.CLOSED → b.state ≠ BState.CLOSED →
      (applyOp sn b op).failures = 0) ∧
    ((applyOp sn b op).failures = 0 → b.failures ≠ 0 →
      (applyOp sn b op).state = BState.CLOSED) := by
  obtain ⟨f, st, lf⟩ := b
  cases op with
  | probe now ok =>
    cases ok with
    | true => exact ⟨fun _ _ => rfl, fun _ _ => rfl⟩
    | false =>
      constructor
      · intro h1 h2
        exfalso
        have hst : (if 3 ≤ f + 1 then BState.OPEN else st) = BState.CLOSED := h1
        revert hst
        split
        · intro hc; cases hc
        · intro hc; exact h2 hc
      · intro h1 h2
        exfalso
        have : f + 1 = 0 := h1
        omega
  | proxy now svc out =>
    have hd : ∀ (b2 : Breaker),
        ((proxyDispatch sn b2 now svc out).1.state = BState.CLOSED →
          b2.state ≠ BState.CLOSED →
          (proxyDispatch sn b2 now svc out).1.failures = 0) ∧
        ((proxyDispatch sn b2 now svc out).1.failures = 0 → b2.failures ≠ 0 →
          (proxyDispatch sn b2 now svc out).1.state = BState.CLOSED) := by
      intro b2
      cases svc with
      | none => exact ⟨fun h1 h2 => absurd h1 h2, fun h1 h2 => absurd h1 h2⟩
      | some s =>
        cases out with
        | success stc d =>
          by_cases hh : b2.state = BState.HALFOPEN
          · constructor
            · intro _ _; simp [proxyDispatch, hh]
            · intro _ _; simp [proxyDispatch, hh]
          · constructor
            · intro h1 h2; exact absurd (by simpa [proxyDispatch, hh] using h1) h2
            · intro h1 h2; exact absurd (by simpa [proxyDispatch, hh] using h1) h2
        | httpError stc d =>
          constructor
          · intro h1 h2
            exfalso
            have hst : (if 3 ≤ b2.failures + 1 then BState.OPEN
                else if b2.state = BState.HALFOPEN then BState.OPEN
                else b2.state) = BState.CLOSED := h1
            revert hst
            split
            · intro hc; cases hc
            · split
              · intro hc; cases hc
              · intro hc; exact h2 hc
          · intro h1 h2
            exfalso
            have : b2.failures + 1 = 0 := h1
            omega
        | networkError msg =>
          constructor
          · intro h1 h2
            exfalso
            have hst : (if 3 ≤ b2.failures + 1 then BState.OPEN
                else if b2.state = BState.HALFOPEN then BState.OPEN
                else b2.state) = BState.CLOSED := h1
            revert hst
            split
            · intro hc; cases hc
            · split
              · intro hc; cases hc
              · intro hc; exact h2 hc
          · intro h1 h2
            exfalso
            have : b2.failures + 1 = 0 := h1
            omega
    simp only [applyOp]
    by_cases hopen : st = BState.OPEN
    · subst hopen
      by_cases ht : 30000 < now - lf
      · have hred : (proxyToService sn ⟨f, BState.OPEN, lf⟩ now svc out).1
            = (proxyDispatch sn ⟨f, BState.HALFOPEN, lf⟩ now svc out).1 := by
          rw [proxyToService, if_pos rfl, if_pos ht]
        rw [hred]
        have h := hd ⟨f, BState.HALFOPEN, lf⟩
        exact ⟨fun h1 _ => h.1 h1 (fun hc => BState.noConfusion hc), h.2⟩
      · have hred : (proxyToService sn ⟨f, BState.OPEN, lf⟩ now svc out).1
            = ⟨f, BState.OPEN, lf⟩ := by
          rw [proxyToService, if_pos rfl, if_neg ht]
        rw [hred]
        exact ⟨fun h1 _ => absurd h1 (fun hc => BState.noConfusion hc),
          fun h1 h2 => absurd h1 h2⟩
    · have hred : (proxyToService sn ⟨f, st, lf⟩ now svc out).1
          = (proxyDispatch sn ⟨f, st, lf⟩ now svc out).1 := by
        rw [proxyToService, if_neg hopen]
      rw [hred]
      exact hd ⟨f, st, lf⟩

/-- C3 witness: a HALF-OPEN trial success lands in CLOSED with the counter
rezeroed, via the amended invariant. -/
theorem C3_witness :
    (applyOp "user-service" ⟨3, BState.HALFOPEN, 0⟩
      (GatewayOp.proxy 50 (some svcSample) (AxiosOutcome.success 200 "ok"))).state
      = BState.CLOSED := by
  exact (C3_counter_reset_iff_closed "user-service" ⟨3, BState.HALFOPEN, 0⟩
    (GatewayOp.proxy 50 (some svcSample) (AxiosOutcome.success 200 "ok"))).2
    (by decide) (by decide)

theorem lookupEntry_eq_none {α : Type} (name : String) (l : List (String × α))
    (h : name ∉ l.map Prod.fst) : lookupEntry name l = none := by
  induction l with
  | nil => rfl
  | cons p rest ih =>
    obtain ⟨n, x⟩ := p
    simp only [List.map_cons, List.mem_cons, not_or] at h
    rw [lookupEntry, if_neg (fun hc => h.1 hc.symm)]
    exact ih h.2

theorem lookupEntry_cleanupEntries_none (now : Nat) (reg : Registry)
    (name : String) (h : lookupEntry name reg = none) :
    lookupEntry name (ServiceRegistry.cleanupEntries now reg) = none := by
  induction reg with
  | nil => rfl
  | cons p rest ih =>
    obtain ⟨n, x⟩ := p
    by_cases hn : n = name
    · rw [lookupEntry, if_pos hn] at h
      exact Option.noConfusion h
    · rw [lookupEntry, if_neg hn] at h
      simp only [ServiceRegistry.cleanupEntries]
      split
      · exact ih h
      · rw [lookupEntry, if_neg hn]
        exact ih h

/-- C8: `discover` returns the stored record exactly when it exists and is
healthy; after `register` it returns the registered info plus bookkeeping
fields (`registeredAt`/`lastHealthCheck` set to now, `healthy` true); after
`updateHealth(name, false)` it returns nothing, and after a subsequent
`updateHealth(name, true)` it returns the record again (healthy, with its
`lastHealthCheck` refreshed). -/
theorem C8_register_discover_roundtrip (reg : Registry) (name : String)
    (info : ServiceInfo) (now t1 t2 : Nat) (r r2 : ServiceRecord) :
    (ServiceRegistry.discover reg name = some r2 ↔
      lookupEntry name reg = some r2 ∧ r2.healthy = true) ∧
    ServiceRegistry.discover (ServiceRegistry.register reg name info now) name
      = some ⟨info.url, now, now, true⟩ ∧
    (lookupEntry name reg = some r →
      ServiceRegistry.discover (ServiceRegistry.updateHealth reg name false t1).1
        name = none ∧
      ServiceRegistry.discover
        ((ServiceRegistry.updateHealth
          (ServiceRegistry.updateHealth reg name false t1).1 name true t2).1) name
        = some { r with healthy := true, lastHealthCheck := t2 }) := by
  refine ⟨?_, ?_, ?_⟩
  · cases h : lookupEntry name reg with
    | none => simp [ServiceRegistry.discover, h]
    | some v =>
      by_cases hv : v.healthy = true
      · simp only [ServiceRegistry.discover, h, if_pos hv]
        constructor
        · rintro hvr
          injection hvr with hvr
          subst hvr
          exact ⟨rfl, hv⟩
        · exact fun hh => hh.1
      · simp only [ServiceRegistry.discover, h, if_neg hv]
        constructor
        · intro hc; exact Option.noConfusion hc
        · rintro ⟨he, hh⟩
          injection he with he
          subst he
          exact absurd hh hv
  · simp [ServiceRegistry.discover, ServiceRegistry.register,
      lookupEntry_setEntry_self]
  · intro hr
    have h1 : (ServiceRegistry.updateHealth reg name false t1).1
        = setEntry name { r with healthy := false, lastHealthCheck := t1 } reg := by
      rw [ServiceRegistry.updateHealth, hr]
    constructor
    · rw [h1]
      simp [ServiceRegistry.discover, lookupEntry_setEntry_self]
    · have h2 : (ServiceRegistry.updateHealth
          (setEntry name { r with healthy := false, lastHealthCheck := t1 } reg)
          name true t2).1
          = setEntry name { r with healthy := true, lastHealthCheck := t2 }
            (setEntry name { r with healthy := false, lastHealthCheck := t1 } reg) := by
        rw [ServiceRegistry.updateHealth, lookupEntry_setEntry_self]
      rw [h1, h2]
      simp [ServiceRegistry.discover, lookupEntry_setEntry_self]

/-- C8 witness: a fresh registration is discoverable with its bookkeeping
fields; after marking unhealthy, discovery returns nothing. -/
theorem C8_witness :
    ServiceRegistry.discover
      (ServiceRegistry.register [] "user-service" ⟨"http://localhost:3001"⟩ 10)
      "user-service" = some ⟨"http://localhost:3001", 10, 10, true⟩ ∧
    ServiceRegistry.discover
      (ServiceRegistry.updateHealth
        (ServiceRegistry.register [] "user-service" ⟨"http://localhost:3001"⟩ 10)
        "user-service" false 20).1 "user-service" = none := by
  constructor
  · exact (C8_register_discover_roundtrip [] "user-service"
      ⟨"http://localhost:3001"⟩ 10 0 0 ⟨"", 0, 0, true⟩ ⟨"", 0, 0, true⟩).2.1
  · exact ((C8_register_discover_roundtrip
      (ServiceRegistry.register [] "user-service" ⟨"http://localhost:3001"⟩ 10)
      "user-service" ⟨"http://localhost:3001"⟩ 10 20 30
      ⟨"http://localhost:3001", 10, 10, true⟩ ⟨"", 0, 0, true⟩).2.2
      (by decide)).1

/-- C9: over a registry with distinct keys (as JS object keys are), the reap
sweep keeps exactly the records whose last-health-check age is at most
120000 ms; equivalently it removes exactly those strictly older than the
2-minute staleness threshold. -/
theorem C9_reap_exact (reg : Registry) (now : Nat) (name : String)
    (r : ServiceRecord) (hnd : (reg.map Prod.fst).Nodup) :
    lookupEntry name (ServiceRegistry.cleanup reg now).1 = some r ↔
      lookupEntry name reg = some r ∧ now - r.lastHealthCheck ≤ 120000 := by
  revert hnd
  induction reg with
  | nil =>
    intro hnd
    simp [ServiceRegistry.cleanup, ServiceRegistry.cleanupEntries, lookupEntry]
  | cons p rest ih =>
    intro hnd
    obtain ⟨n, x⟩ := p
    rw [List.map_cons, List.nodup_cons] at hnd
    show lookupEntry name
        (ServiceRegistry.cleanupEntries now ((n, x) :: rest)) = some r ↔ _
    by_cases hst : 120000 < now - x.lastHealthCheck
    · rw [show ServiceRegistry.cleanupEntries now ((n, x) :: rest)
          = ServiceRegistry.cleanupEntries now rest by
        simp only [ServiceRegistry.cleanupEntries]; rw [if_pos hst]]
      by_cases hn : n = name
      · subst hn
        rw [lookupEntry_cleanupEntries_none now rest n
          (lookupEntry_eq_none n rest hnd.1)]
        rw [lookupEntry, if_pos rfl]
        constructor
        · intro hc; exact Option.noConfusion hc
        · rintro ⟨he, hc⟩
          injection he with he
          subst he
          omega
      · rw [lookupEntry, if_neg hn]
        exact ih hnd.2
    · rw [show ServiceRegistry.cleanupEntries now ((n, x) :: rest)
          = (n, x) :: ServiceRegistry.cleanupEntries now rest by
        simp only [ServiceRegistry.cleanupEntries]; rw [if_neg hst]]
      by_cases hn : n = name
      · rw [lookupEntry, if_pos hn, lookupEntry, if_pos hn]
        constructor
        · intro he
          injection he with he
          subst he
          exact ⟨rfl, by omega⟩
        · exact fun hh => hh.1
      · rw [lookupEntry, if_neg hn, lookupEntry, if_neg hn]
        exact ih hnd.2

/-- C9 witness: at time 121000 ms, the record last checked at 0 (2 min 1 s
old) is removed and the record last checked at 2000 (1 min 59 s old) is
kept. -/
theorem C9_witness :
    lookupEntry "item-service" (ServiceRegistry.cleanup regSample 121000).1
      = some ⟨"http://localhost:3002", 0, 2000, true⟩ ∧
    lookupEntry "user-service" (ServiceRegistry.cleanup regSample 121000).1
      ≠ some ⟨"http://localhost:3001", 0, 0, true⟩ := by
  constructor
  · exact (C9_reap_exact regSample 121000 "item-service"
      ⟨"http://localhost:3002", 0, 2000, true⟩ (by decide)).mpr (by decide)
  · intro hc
    have h := (C9_reap_exact regSample 121000 "user-service"
      ⟨"http://localhost:3001", 0, 0, true⟩ (by decide)).mp hc
    exact absurd h.2 (by decide)

/-- C5 counterexample: with a bearer header and `user-service` missing from
discovery, the dashboard responds 500 (the caught TypeError from the `null`
dereference), not 503 as the claim states for the aggregator paths; no
downstream call is dispatched. The search aggregator likewise answers 200,
not 503, on an item-service discovery miss. -/
theorem C5_counterexample :
    (getDashboard (some "Bearer tok") none none none
      (FetchResult.ok ⟨true, userSample⟩) (FetchResult.ok ⟨true, []⟩)
      (FetchResult.ok ⟨true, 0⟩)).1.1 = 500 ∧
    (getDashboard (some "Bearer tok") none none none
      (FetchResult.ok ⟨true, userSample⟩) (FetchResult.ok ⟨true, []⟩)
      (FetchResult.ok ⟨true, 0⟩)).2 = ⟨false, false, false⟩ ∧
    (globalSearch (some "mac") none none none
      (FetchResult.ok ⟨true, []⟩) (FetchResult.ok ⟨true, []⟩)).1.1 = 200 := by
  decide

/-- C5 amended: a discovery miss never dispatches a call to the missing
service, and the proxy path responds 503; the aggregator paths, however,
answer per their own error policy instead of 503: the dashboard's catch
yields 500 carrying the thrown error message, and the search records a
per-section error marker and still answers 200. -/
theorem C5_discovery_miss_no_dispatch (sn : String) (b : Breaker) (now : Nat)
    (out : AxiosOutcome) (hdr qv : String) (auth : Option String)
    (dL dI : Option ServiceRecord)
    (v : FetchResult ValidateEnvelope) (lr : FetchResult ListsEnvelope)
    (ir : FetchResult ItemsEnvelope) (isr : FetchResult ItemSearchEnvelope)
    (hb : hasBearer (some hdr) = true) (hq : qv ≠ "") :
    (proxyToService sn b now none out).2.1.status = 503 ∧
    (proxyToService sn b now none out).2.2 = false ∧
    getDashboard (some hdr) none dL dI v lr ir
      = ((500, DashBody.dashError nullUrlMessage), ⟨false, false, false⟩) ∧
    (globalSearch (some qv) auth none dL isr lr).1.1 = 200 ∧
    (globalSearch (some qv) auth none dL isr lr).2.itemsCalled = false := by
  refine ⟨?_, ?_, ?_, ?_, ?_⟩
  · rw [proxyToService]
    split
    · split
      · rfl
      · rfl
    · rfl
  · rw [proxyToService]
    split
    · split
      · rfl
      · rfl
    · rfl
  · simp [getDashboard, hb]
  · simp only [globalSearch]
    rw [if_neg hq]
  · simp only [globalSearch]
    rw [if_neg hq]

/-- C5 witness: the proxy path fast-fails a discovery miss with 503 and the
dashboard path turns the same miss into a 500, both with zero downstream
calls. -/
theorem C5_witness :
    (proxyToService "list-service" ⟨0, BState.CLOSED, 0⟩ 100 none
      (AxiosOutcome.success 200 "ok")).2.1.status = 503 ∧
    getDashboard (some "Bearer tok") none none none
      (FetchResult.ok ⟨true, userSample⟩) (FetchResult.ok ⟨true, []⟩)
      (FetchResult.ok ⟨true, 0⟩)
      = ((500, DashBody.dashError nullUrlMessage), ⟨false, false, false⟩) := by
  have h := C5_discovery_miss_no_dispatch "list-service" ⟨0, BState.CLOSED, 0⟩ 100
    (AxiosOutcome.success 200 "ok") "Bearer tok" "mac" none none none
    (FetchResult.ok ⟨true, userSample⟩) (FetchResult.ok ⟨true, []⟩)
    (FetchResult.ok ⟨true, 0⟩) (FetchResult.ok ⟨true, []⟩)
    (by decide) (by decide)
  exact ⟨h.1, h.2.2.1⟩

/-- C6 counterexample: the list backend completes with an HTTP success whose
envelope has `success: false` and a non-empty `data`; the dashboard still
answers 200 with `success: true` and the lists section silently defaulted to
empty (zero lists, no recent lists) — a partial dashboard, refuting "no
partial dashboard (a success response missing or defaulting one of the
sections) is ever returned". -/
theorem C6_counterexample :
    getDashboard (some "Bearer tok") (some svcSample) (some svcSample)
      (some svcSample)
      (FetchResult.ok ⟨true, userSample⟩)
      (FetchResult.ok ⟨false, [listSample]⟩)
      (FetchResult.ok ⟨true, 7⟩)
      = ((200, DashBody.dashboard userSample ⟨0, 0, 0, 7, 0⟩ []),
          ⟨true, true, true⟩) := by
  decide

/-- C6 amended: if either the list fetch or the item fetch throws (network
failure, timeout, or HTTP error status), the whole endpoint fails with a 500
embedding the failure detail; when both fetches complete, a 200 dashboard is
returned — but a completed fetch whose envelope reports `success: false` is
silently defaulted (lists to `[]`, item count to `0`) rather than failing
the endpoint. -/
theorem C6_dashboard_all_or_nothing (hdr : String) (sU sL sI : ServiceRecord)
    (venv : ValidateEnvelope) (e : String) (lenv : ListsEnvelope)
    (ienv : ItemsEnvelope) (ir : FetchResult ItemsEnvelope)
    (hb : hasBearer (some hdr) = true) (hv : venv.success = true) :
    getDashboard (some hdr) (some sU) (some sL) (some sI)
      (FetchResult.ok venv) (FetchResult.failed e) ir
      = ((500, DashBody.dashError e), ⟨true, true, false⟩) ∧
    getDashboard (some hdr) (some sU) (some sL) (some sI)
      (FetchResult.ok venv) (FetchResult.ok lenv) (FetchResult.failed e)
      = ((500, DashBody.dashError e), ⟨true, true, true⟩) ∧
    (getDashboard (some hdr) (some sU) (some sL) (some sI)
      (FetchResult.ok venv) (FetchResult.ok lenv) (FetchResult.ok ienv)).1.1
      = 200 := by
  refine ⟨?_, ?_, ?_⟩
  · simp [getDashboard, hb, hv]
  · simp [getDashboard, hb, hv]
  · simp [getDashboard, hb, hv]

/-- C6 witness: the amended policy at concrete inputs — a failed list fetch
aborts the dashboard with 500 and its error message. -/
theorem C6_witness :
    getDashboard (some "Bearer tok") (some svcSample) (some svcSample)
      (some svcSample) (FetchResult.ok ⟨true, userSample⟩)
      (FetchResult.failed "timeout of 5000ms exceeded")
      (FetchResult.ok ⟨true, 7⟩)
      = ((500, DashBody.dashError "timeout of 5000ms exceeded"),
          ⟨true, true, false⟩) := by
  exact (C6_dashboard_all_or_nothing "Bearer tok" svcSample svcSample svcSample
    ⟨true, userSample⟩ "timeout of 5000ms exceeded" ⟨true, []⟩ ⟨true, 7⟩
    (FetchResult.ok ⟨true, 7⟩) (by decide) rfl).1

/-- C7: search partial tolerance. With a non-empty query and no credential,
the response carries item results and no lists section (and no lists error).
With a credential present and the item fetch failing, the response still
answers 200 / overall success, carries the item error under the
error-flagged `itemsError` key, and still carries a populated lists section
(non-empty whenever some list matches the query). -/
theorem C7_search_partial_tolerance (qv : String) (sI sL : ServiceRecord)
    (items : List String) (hdr e : String) (dL : Option ServiceRecord)
    (lr : FetchResult ListsEnvelope) (lenv : ListsEnvelope) (l : ShoppingList)
    (hq : qv ≠ "") (hb : hasBearer (some hdr) = true)
    (hl : lenv.success = true) (hmem : l ∈ lenv.data)
    (hmatch : nameMatches qv l.name = true) :
    globalSearch (some qv) none (some sI) dL (FetchResult.ok ⟨true, items⟩) lr
      = ((200, SearchBody.results ⟨some items, none, none, none⟩ qv),
          ⟨true, false⟩) ∧
    globalSearch (some qv) (some hdr) (some sI) (some sL)
        (FetchResult.failed e) (FetchResult.ok lenv)
      = ((200, SearchBody.results
          ⟨none, some e,
            some ((lenv.data.filter (fun x => nameMatches qv x.name)).take 5),
            none⟩ qv), ⟨true, true⟩) ∧
    (lenv.data.filter (fun x => nameMatches qv x.name)).take 5 ≠ [] := by
  refine ⟨?_, ?_, ?_⟩
  · simp only [globalSearch]
    rw [if_neg hq]
    rfl
  · simp only [globalSearch]
    rw [if_neg hq]
    simp only [hb, hl]
    rfl
  · have hfil : l ∈ lenv.data.filter (fun x => nameMatches qv x.name) :=
      List.mem_filter.mpr ⟨hmem, hmatch⟩
    cases hf : lenv.data.filter (fun x => nameMatches qv x.name) with
    | nil =>
      rw [hf] at hfil
      exact absurd hfil (List.not_mem_nil l)
    | cons a t =>
      simp [List.take]

/-- C7 witness: an anonymous search returning items only, and an
authenticated search with the item backend down that still reports success
with a populated lists section. -/
theorem C7_witness :
    globalSearch (some "feira") none (some svcSample) none
      (FetchResult.ok ⟨true, ["arroz"]⟩) (FetchResult.ok ⟨true, []⟩)
      = ((200, SearchBody.results ⟨some ["arroz"], none, none, none⟩ "feira"),
          ⟨true, false⟩) ∧
    globalSearch (some "feira") (some "Bearer tok") (some svcSample)
        (some svcSample)
      (FetchResult.failed "ECONNREFUSED") (FetchResult.ok ⟨true, [listSample]⟩)
      = ((200, SearchBody.results
          ⟨none, some "ECONNREFUSED", some [listSample], none⟩ "feira"),
        ⟨true, true⟩) := by
  have h := C7_search_partial_tolerance "feira" svcSample svcSample ["arroz"]
    "Bearer tok" "ECONNREFUSED" none (FetchResult.ok ⟨true, []⟩)
    ⟨true, [listSample]⟩ listSample (by decide) (by decide) rfl (by decide)
    (by decide)
  refine ⟨h.1, ?_⟩
  rw [h.2.1]
  decide
